import Mathlib

/-!
Verification of the `mojap-metadata` database converter
(`mojap_metadata/converters/database_converter/__init__.py` and
`mojap_metadata/converters/database_converter/database_functions.py`)
against its natural-language specification.

The Python code is shallowly embedded: dynamic Python values appearing in
raw column descriptors become the inductive `PyVal`; the SQLAlchemy
reflection layer (an external library) is abstracted as a `DBReflection`
record supplying schema names, the dialect name, table names per schema and
the raw column descriptors per table; the ordered Python dict
`_sqlalchemy_type_map` becomes an association list in source order; the
`DefaultDict` accumulated by `generate_from_meta` becomes an insertion-ordered
association list.
-/

/-- A dynamic Python value as it can appear in a raw column descriptor:
`None`, a string, a boolean or an integer. -/
inductive PyVal where
  | none
  | str (s : String)
  | bool (b : Bool)
  | int (n : Int)
  deriving DecidableEq, Repr

/-- Python `str(v)`. -/
def pyStr : PyVal → String
  | PyVal.none => "None"
  | PyVal.str s => s
  | PyVal.bool true => "True"
  | PyVal.bool false => "False"
  | PyVal.int n => toString n

/-- Python `v is None`. -/
def pyIsNone : PyVal → Bool
  | PyVal.none => true
  | _ => false

/-- Python `==` on the embedded value universe (`1 == True` holds, a string
never equals a boolean, `None` equals only `None`). -/
def pyEq : PyVal → PyVal → Bool
  | PyVal.none, PyVal.none => true
  | PyVal.str a, PyVal.str b => a == b
  | PyVal.bool a, PyVal.bool b => a == b
  | PyVal.int a, PyVal.int b => a == b
  | PyVal.int a, PyVal.bool b => a == (if b then (1 : Int) else 0)
  | PyVal.bool a, PyVal.int b => (if a then (1 : Int) else 0) == b
  | _, _ => false

/-- Python truthiness of an embedded value. -/
def pyTruthy : PyVal → Bool
  | PyVal.none => false
  | PyVal.str s => !(s == "")
  | PyVal.bool b => b
  | PyVal.int n => !(n == 0)

/-- Python `s.lower()` (ASCII case folding, as the column names at hand use). -/
def pyLower (s : String) : String := String.mk (s.data.map Char.toLower)

/-- Python `s.upper()` (ASCII case folding, as the schema names at hand use). -/
def pyUpper (s : String) : String := String.mk (s.data.map Char.toUpper)

/-- Does `pat` occur at the head of `txt`? (helper for substring search). -/
def leadMatch : List Char → List Char → Bool
  | [], _ => true
  | _ :: _, [] => false
  | c :: cs, d :: ds => c == d && leadMatch cs ds

/-- Does `pat` occur anywhere in `txt`? -/
def occursIn (pat : List Char) : List Char → Bool
  | [] => leadMatch pat []
  | c :: cs => leadMatch pat (c :: cs) || occursIn pat cs

/-- Python `txt.find(k) >= 0`: `k` is a substring of `txt`. -/
def findsSub (txt k : String) : Bool := occursIn k.data txt.data

/-- The static type-mapping table `_sqlalchemy_type_map`, as an association
list in the source's insertion order (a Python dict iterates in insertion
order). -/
def sqlalchemyTypeMap : List (String × String) :=
  [ ("BIGINT", "int64"),
    ("INT", "int32"),
    ("INTEGER", "int32"),
    ("SMALLINT", "int16"),
    ("REAL", "float24"),
    ("DOUBLE", "float32"),
    ("DOUBLE_PRECISION", "float64"),
    ("NUMERIC", "float64"),
    ("DECIMAL", "decimal"),
    ("TEXT", "character"),
    ("UUID", "character"),
    ("NCHAR", "character"),
    ("CHAR", "character"),
    ("NVARCHAR", "character"),
    ("VARCHAR", "character"),
    ("JSON", "character"),
    ("DATE", "date64"),
    ("TIME", "timestamp(ms)"),
    ("TIMESTAMP", "timestamp(ms)"),
    ("DATETIME", "datetime"),
    ("BOOLEAN", "bool"),
    ("BOOL", "bool"),
    ("BLOB", "blob"),
    ("CLOB", "clob"),
    ("BINARY", "binary"),
    ("VARBINARY", "binary") ]

/-- Python `dict.get` on an association list (keys are unique, first match). -/
def mapGet : List (String × String) → String → Option String
  | [], _ => Option.none
  | (k, v) :: rest, key => if k = key then Option.some v else mapGet rest key

/-- `DatabaseConverter.convert_to_mojap_type`: exact dict lookup, the string
literal "string" when `dict.get` gives `None`. -/
def convert_to_mojap_type (col_type : String) : String :=
  match mapGet sqlalchemyTypeMap col_type with
  | Option.none => "string"
  | Option.some v => v

/-- The loop of `DatabaseConverter._approx_dtype`: `dtype = 'binary'`, then
scan the table's keys in insertion order and break at the first key that is a
substring of the input. -/
def approxLoop : List String → String → String
  | [], _ => "binary"
  | k :: ks, txt => if findsSub txt k then k else approxLoop ks txt

/-- `DatabaseConverter._approx_dtype`. -/
def approx_dtype (txt : String) : String :=
  approxLoop (sqlalchemyTypeMap.map Prod.fst) txt

/-- The spec's notion of the substring matcher: the first key of the table,
in insertion order, that is a substring of the input (when one exists). -/
def firstMatchingKey (txt : String) : Option String :=
  (sqlalchemyTypeMap.map Prod.fst).find? (fun k => findsSub txt k)

/-- A raw column descriptor as the reflection layer yields it to
`get_object_meta`: `col[0]` the name, `col[1]` (already rendered by `str`)
the raw dialect type, `col[2]` the nullability indicator, `col[3]` the
description. -/
structure RawCol where
  name : String
  ctype : String
  nullable : PyVal
  description : PyVal
  deriving DecidableEq, Repr

/-- One column of the metadata dict built by `get_object_meta`. -/
structure ColumnRecord where
  name : String
  type : String
  description : Option String
  nullable : Bool
  deriving DecidableEq, Repr

/-- The body of the `for col in rows[0]` loop of
`DatabaseConverter.get_object_meta`, per column:
`dType = self._approx_dtype(str(col[1]))`,
`columnType = self.convert_to_mojap_type(dType)`, then the source rebinds
`columnType = str(col[1])` (the computed canonical type is discarded);
description is `None if str(col[3]) is None else str(col[3])` and nullable is
`True if col[2] == "YES" or col[2] == True or col[2] else False`. -/
def columnRecord (col : RawCol) : ColumnRecord :=
  let dType := approx_dtype col.ctype
  let columnType := convert_to_mojap_type dType
  let columnType := col.ctype
  { name := pyLower col.name
    type := columnType
    description :=
      if pyIsNone (PyVal.str (pyStr col.description)) then Option.none
      else Option.some (pyStr (PyVal.str (pyStr col.description)))
    nullable :=
      if pyEq col.nullable (PyVal.str "YES") || pyEq col.nullable (PyVal.bool true)
          || pyTruthy col.nullable then true else false }

/-- The reflection abstraction: what SQLAlchemy's `Inspector` exposes through
`database_functions` for one connection. `schemas` is
`inspect(connection).get_schema_names()`, `dialectName` is
`connection.dialect.name`, `tables s` is `get_table_names(s)` and
`columnsOf t s` is the list of raw column descriptors
`list_meta_data(connection, t, s)[0]`. -/
structure DBReflection where
  schemas : List String
  dialectName : String
  tables : String → List String
  columnsOf : String → String → List RawCol

/-- The system-schema denylist of `database_functions.list_schemas`:
upper-cased postgres names for dialect `postgres`, the Oracle list for
dialect `oracle`, empty for every other dialect. -/
def system_schemas_for (dialect : String) : List String :=
  if dialect = "postgres" then
    [ pyUpper "pg_catalog", pyUpper "information_schema", pyUpper "pg_toast",
      pyUpper "pg_temp_1", pyUpper "pg_toast_temp_1" ]
  else if dialect = "oracle" then
    [ "ADMIN", "ANONYMOUS", "APPQOSSYS", "AUDSYS", "CTXSYS", "DBSFWUSER",
      "DBSNMP", "DIP", "GGSYS", "GSMADMIN_INTERNAL", "GSMUSER", "OUTLN",
      "PUBLIC", "RDSADMIN", "REMOTE_SCHEDULER_AGENT", "SYS", "SYS$UMF",
      "SYSBACKUP", "SYSDG", "SYSKM", "SYSRAC", "SYSTEM", "XDB", "XS$NULL" ]
  else []

/-- `database_functions.list_schemas(connection)`:
`[r for r in response if r.upper() not in system_schemas]`. -/
def list_schemas (r : DBReflection) : List String :=
  r.schemas.filter (fun s => !((system_schemas_for r.dialectName).contains (pyUpper s)))

/-- `database_functions.list_tables(connection, schema)`: a pass-through of
`get_table_names(schema)`. -/
def list_tables (r : DBReflection) (schema : String) : List String :=
  r.tables schema

/-- The table-level metadata dict built by `get_object_meta`
(`{"name": table, "columns": columns}`; the further keys `Metadata.from_dict`
adds are constants irrelevant to the claims). -/
structure TableMetadata where
  name : String
  columns : List ColumnRecord
  deriving DecidableEq, Repr

/-- `DatabaseConverter.get_object_meta`. -/
def get_object_meta (r : DBReflection) (table schema : String) : TableMetadata :=
  { name := table
    columns := (r.columnsOf table schema).map columnRecord }

/-- The key `f"schema: {schema}"`. -/
def schemaKey (schema : String) : String := "schema: " ++ schema

/-- The result shape of `generate_from_meta`: an insertion-ordered mapping
from schema keys to table metadata lists (a Python `DefaultDict(list)`). -/
abbrev SchemaResult := List (String × List TableMetadata)

/-- `meta_list_per_schema[k].append(v)` on a `DefaultDict(list)`: append to
the entry when the key exists, otherwise create the key (at the end, in
insertion order) with the one-element list. -/
def ddAppend (m : SchemaResult) (k : String) (v : TableMetadata) : SchemaResult :=
  match m with
  | [] => [(k, [v])]
  | (k0, vs) :: rest =>
      if k0 = k then (k0, vs ++ [v]) :: rest else (k0, vs) :: ddAppend rest k v

/-- The inner loop of `generate_from_meta`: for each table of one schema, in
order, append its metadata under the schema's key. -/
def processTables (r : DBReflection) (schema : String) :
    List String → SchemaResult → SchemaResult
  | [], acc => acc
  | t :: ts, acc =>
      processTables r schema ts (ddAppend acc (schemaKey schema) (get_object_meta r t schema))

/-- The outer loop of `generate_from_meta`: schemas in the given order, each
one's tables through `processTables`. -/
def coreLoop (r : DBReflection) : List String → SchemaResult → SchemaResult
  | [], acc => acc
  | s :: ss, acc => coreLoop r ss (processTables r s (list_tables r s) acc)

/-- Python string `<`: lexicographic comparison by code point. -/
def charListLt : List Char → List Char → Bool
  | [], [] => false
  | [], _ :: _ => true
  | _ :: _, [] => false
  | c :: cs, d :: ds =>
      if c.val < d.val then true else if d.val < c.val then false else charListLt cs ds

/-- Python `s < t` on strings. -/
def pyStrLt (s t : String) : Bool := charListLt s.data t.data

/-- Insert a string into a sorted list (Python `sorted`, lexicographic by
code point). -/
def insertSorted (s : String) : List String → List String
  | [] => [s]
  | t :: ts => if pyStrLt s t then s :: t :: ts else t :: insertSorted s ts

/-- Python `sorted` on a list of strings. -/
def pySorted : List String → List String
  | [] => []
  | s :: ss => insertSorted s (pySorted ss)

/-- The grouping `generate_from_meta` performs once it holds a list of schema
names: `for schema in sorted(schema_names): for table in ...: append`. -/
def grouping (r : DBReflection) (schema_names : List String) : SchemaResult :=
  coreLoop r (pySorted schema_names) []

/-- The number of parameters `def list_schemas(connection)` declares. -/
def list_schemas_params : Nat := 1

/-- The number of positional arguments the call site
`dbfun.list_schemas(connection, self.dialect)` inside `generate_from_meta`
passes. -/
def generate_callsite_args : Nat := 2

/-- `DatabaseConverter.generate_from_meta`: the call
`dbfun.list_schemas(connection, self.dialect)` is a Python positional call,
so it raises `TypeError` unless the argument count matches the declared
parameter count; only then does the schema loop run. -/
def generate_from_meta (r : DBReflection) : Except String SchemaResult :=
  if generate_callsite_args == list_schemas_params then
    Except.ok (grouping r (list_schemas r))
  else
    Except.error "TypeError: list_schemas() takes 1 positional argument but 2 were given"

/-! ### Helper lemmas about the substring scanner -/

/-- When the spec-side first-match scan finds a key, `approxLoop` returns
exactly that key. -/
theorem approxLoop_eq_of_find (ks : List String) (txt k : String)
    (h : ks.find? (fun x => findsSub txt x) = Option.some k) :
    approxLoop ks txt = k := by
  induction ks with
  | nil => simp [List.find?] at h
  | cons k0 ks ih =>
      rw [List.find?] at h
      cases hf : findsSub txt k0 with
      | true =>
          rw [hf] at h
          simp at h
          subst h
          simp [approxLoop, hf]
      | false =>
          rw [hf] at h
          simp at h
          simp [approxLoop, hf, ih h]

/-- When no key of the scan list matches, `approxLoop` falls back to the
literal 'binary'. -/
theorem approxLoop_eq_of_find_none (ks : List String) (txt : String)
    (h : ks.find? (fun x => findsSub txt x) = Option.none) :
    approxLoop ks txt = "binary" := by
  induction ks with
  | nil => rfl
  | cons k0 ks ih =>
      rw [List.find?] at h
      cases hf : findsSub txt k0 with
      | true => rw [hf] at h; simp at h
      | false =>
          rw [hf] at h
          simp [approxLoop, hf, ih h]

/-! ### Claims C1, C2, C3: the per-column record of `get_object_meta` -/

/-- A one-table, one-column reflection: the single raw column descriptor is
`("ID", "INTEGER", "NO", None)`. -/
def rOneIntCol : DBReflection :=
  { schemas := ["s"], dialectName := "postgresql",
    tables := fun _ => ["t"],
    columnsOf := fun _ _ => [⟨"ID", "INTEGER", PyVal.str "NO", PyVal.none⟩] }

/-- Claim C1 (code bug): on the raw column descriptor
`("ID", "INTEGER", "NO", None)` the `type` field that `get_object_meta`
builds is the raw dialect string "INTEGER", although the Type Mapper's
canonical type of that raw string is "int32": the code computes the
canonical type and then overwrites it with the raw string, while the claim
(and the repository's own test expectations) require the canonical type. -/
theorem get_object_meta_type_is_raw_not_canonical :
    (get_object_meta rOneIntCol "t" "s").columns.map ColumnRecord.type = ["INTEGER"]
    ∧ convert_to_mojap_type (approx_dtype "INTEGER") = "int32"
    ∧ ("INTEGER" : String) ≠ "int32" := by
  decide

/-- Claim C2 counterexample: the raw indicator "NO" is neither the string
"YES" nor the boolean `true`, yet the record built by `get_object_meta` has
`nullable = true` (the trailing `or col[2]` accepts every truthy value). -/
theorem nullable_no_counterexample :
    (columnRecord ⟨"ID", "INTEGER", PyVal.str "NO", PyVal.none⟩).nullable = true
    ∧ PyVal.str "NO" ≠ PyVal.str "YES"
    ∧ PyVal.str "NO" ≠ PyVal.bool true := by
  decide

/-- Claim C2 as amended: the `nullable` field equals the Python truthiness of
the raw indicator — "YES" and `true` give `true`, but so does any other
non-empty string (such as "NO") and any non-zero number; only falsy
indicators (`None`, `false`, the empty string, zero) give `false`. -/
theorem nullable_eq_truthiness (c : RawCol) :
    (columnRecord c).nullable = pyTruthy c.nullable := by
  show (if pyEq c.nullable (PyVal.str "YES") || pyEq c.nullable (PyVal.bool true)
      || pyTruthy c.nullable then true else false) = pyTruthy c.nullable
  cases hv : c.nullable with
  | none => rfl
  | str s =>
      simp only [pyEq, pyTruthy]
      by_cases hs : s = "YES"
      · subst hs; decide
      · have e1 : (s == "YES") = false := by simp [hs]
        simp [e1]
        cases e0 : (s == "") with
        | true => simp [eq_of_beq e0]
        | false => simp [ne_of_beq_false e0]
  | bool b => cases b <;> rfl
  | int n =>
      simp only [pyEq, pyTruthy]
      by_cases h0 : n = 0
      · subst h0; decide
      · by_cases h1 : n = 1
        · subst h1; decide
        · have e1 : (n == 1) = false := by simp [h1]
          have e0 : (n == 0) = false := by simp [h0]
          simp [e1, e0]

/-- Claim C3 counterexample: a raw column descriptor with an absent (`None`)
description yields the literal string "None" as the record's description —
not an absent value. -/
theorem description_none_literal_counterexample :
    (columnRecord ⟨"X", "TEXT", PyVal.bool false, PyVal.none⟩).description
      = Option.some "None"
    ∧ Option.some "None" ≠ (Option.none : Option String) := by
  decide

/-- Claim C3 as amended: the `description` field is always present and equals
the Python `str()` of the raw value — a present string description is kept
verbatim, and an absent raw description becomes the literal string "None"
(the guard `str(col[3]) is None` in the source can never hold). -/
theorem description_eq_str_of_raw (c : RawCol) :
    (columnRecord c).description = Option.some (pyStr c.description) := rfl

/-! ### Claims C5, C6, C7: the type-canonicalization machinery -/

/-- Claim C5 counterexample: "SMALLINT" is a key of the static table with
canonical type "int16", and direct lookup returns "int16", but the same
token routed through `_approx_dtype` resolves to the earlier key "INT" (a
substring of "SMALLINT") and therefore canonicalizes to "int32". -/
theorem smallint_routed_counterexample :
    mapGet sqlalchemyTypeMap "SMALLINT" = Option.some "int16"
    ∧ convert_to_mojap_type "SMALLINT" = "int16"
    ∧ approx_dtype "SMALLINT" = "INT"
    ∧ convert_to_mojap_type (approx_dtype "SMALLINT") = "int32"
    ∧ ("int32" : String) ≠ "int16" := by
  decide

/-- Claim C5 as amended: for every raw type token that is exactly a key of
the static table, direct lookup via `convert_to_mojap_type` returns exactly
the table's canonical type for that key; the original claim's extension to
tokens routed through `_approx_dtype` fails, since the router returns the
first substring-matching key, which for "SMALLINT" is "INT" (canonical
"int32") and for "DOUBLE_PRECISION" is "DOUBLE" (canonical "float32"). -/
theorem convert_exact_lookup (k v : String)
    (h : mapGet sqlalchemyTypeMap k = Option.some v) :
    convert_to_mojap_type k = v := by
  unfold convert_to_mojap_type
  rw [h]

/-- Witness for claim C5's amended theorem at the concrete key "SMALLINT". -/
theorem convert_exact_lookup_smallint :
    convert_to_mojap_type "SMALLINT" = "int16" :=
  convert_exact_lookup "SMALLINT" "int16" (by decide)

/-- Claim C6: a raw type token that is not itself a table key but contains at
least one table key as a substring canonicalizes (via `_approx_dtype`
followed by `convert_to_mojap_type`) to the canonical type of the first
matching key in the table's insertion order. -/
theorem canonicalize_first_substring_match (txt k v : String)
    (_hnk : mapGet sqlalchemyTypeMap txt = Option.none)
    (hfm : firstMatchingKey txt = Option.some k)
    (hkv : mapGet sqlalchemyTypeMap k = Option.some v) :
    convert_to_mojap_type (approx_dtype txt) = v := by
  have ha : approx_dtype txt = k := approxLoop_eq_of_find _ _ _ hfm
  rw [ha]
  unfold convert_to_mojap_type
  rw [hkv]

/-- Witness for claim C6 at the concrete token "VARCHAR(255)": the first
substring-matching key is "CHAR", so canonicalization yields "character". -/
theorem canonicalize_varchar255 :
    convert_to_mojap_type (approx_dtype "VARCHAR(255)") = "character" :=
  canonicalize_first_substring_match "VARCHAR(255)" "CHAR" "character"
    (by decide) (by decide) (by decide)

/-- Claim C7: a raw type token that neither equals nor contains any table key
canonicalizes — without failing — to the fixed default "string" on both
routes: directly through `convert_to_mojap_type`, and through
`_approx_dtype` followed by `convert_to_mojap_type` (the router's sentinel
'binary' is lower-case, hence not a table key, and maps to "string"). -/
theorem canonicalize_unknown_default (txt : String)
    (hnk : mapGet sqlalchemyTypeMap txt = Option.none)
    (hfm : firstMatchingKey txt = Option.none) :
    convert_to_mojap_type txt = "string"
    ∧ convert_to_mojap_type (approx_dtype txt) = "string" := by
  constructor
  · unfold convert_to_mojap_type
    rw [hnk]
  · have ha : approx_dtype txt = "binary" := approxLoop_eq_of_find_none _ _ hfm
    rw [ha]
    decide

/-- Witness for claim C7 at the concrete unknown token "GEOMETRY(4326)". -/
theorem canonicalize_unknown_geometry :
    convert_to_mojap_type "GEOMETRY(4326)" = "string"
    ∧ convert_to_mojap_type (approx_dtype "GEOMETRY(4326)") = "string" :=
  canonicalize_unknown_default "GEOMETRY(4326)" (by decide) (by decide)

/-! ### Claims C4, C8: the schema grouping of `generate_from_meta` -/

/-- The keys `f"schema: {schema}"` are distinct for distinct schema names. -/
theorem schemaKey_inj {a b : String} (h : schemaKey a = schemaKey b) : a = b := by
  have hd : ("schema: " ++ a).data = ("schema: " ++ b).data := congrArg String.data h
  rw [String.data_append, String.data_append] at hd
  exact String.ext (List.append_cancel_left hd)

/-- Membership is preserved by sorted insertion. -/
theorem mem_insertSorted (a s : String) (l : List String) :
    a ∈ insertSorted s l ↔ a = s ∨ a ∈ l := by
  induction l with
  | nil => simp [insertSorted]
  | cons t ts ih =>
      simp only [insertSorted]
      split
      · simp
      · simp [ih]
        tauto

/-- Membership is preserved by the Python `sorted`. -/
theorem mem_pySorted (a : String) (l : List String) :
    a ∈ pySorted l ↔ a ∈ l := by
  induction l with
  | nil => simp [pySorted]
  | cons s ss ih => simp [pySorted, mem_insertSorted, ih]

/-- The keys after a `DefaultDict` append are the old keys plus the appended
key. -/
theorem keys_ddAppend (m : SchemaResult) (k : String) (v : TableMetadata) :
    (ddAppend m k v).map Prod.fst
      = if k ∈ m.map Prod.fst then m.map Prod.fst else m.map Prod.fst ++ [k] := by
  induction m with
  | nil => simp [ddAppend]
  | cons p rest ih =>
      obtain ⟨k0, vs⟩ := p
      simp only [ddAppend]
      split
      · next he =>
          subst he
          simp
      · next he =>
          have hk : ¬ k = k0 := fun e => he e.symm
          by_cases hm : k ∈ rest.map Prod.fst
          · simp [ih, hm, hk]
          · simp [ih, hm, hk]

/-- Membership among the keys after a `DefaultDict` append. -/
theorem mem_keys_ddAppend (m : SchemaResult) (k : String) (v : TableMetadata)
    (k2 : String) :
    k2 ∈ (ddAppend m k v).map Prod.fst ↔ k2 ∈ m.map Prod.fst ∨ k2 = k := by
  rw [keys_ddAppend]
  split
  · next hm =>
      constructor
      · exact fun h => Or.inl h
      · rintro (h | h)
        · exact h
        · exact h ▸ hm
  · next hm => simp [List.mem_append]

/-- Appending under a key that is absent creates the entry at the end. -/
theorem ddAppend_absent (m : SchemaResult) (k : String) (v : TableMetadata)
    (h : k ∉ m.map Prod.fst) :
    ddAppend m k v = m ++ [(k, [v])] := by
  induction m with
  | nil => rfl
  | cons p rest ih =>
      obtain ⟨k0, vs⟩ := p
      have h1 : ¬ k0 = k := fun e => h (by simp [e])
      have h2 : k ∉ rest.map Prod.fst := fun hm => h (by simp [hm])
      simp only [ddAppend, if_neg h1]
      rw [ih h2]
      simp

/-- Appending under the key of the last entry extends that entry in place. -/
theorem ddAppend_last (pre : SchemaResult) (k : String) (vs : List TableMetadata)
    (v : TableMetadata) (h : k ∉ pre.map Prod.fst) :
    ddAppend (pre ++ [(k, vs)]) k v = pre ++ [(k, vs ++ [v])] := by
  induction pre with
  | nil => simp [ddAppend]
  | cons p rest ih =>
      obtain ⟨k0, vs0⟩ := p
      have h1 : ¬ k0 = k := fun e => h (by simp [e])
      have h2 : k ∉ rest.map Prod.fst := fun hm => h (by simp [hm])
      simp only [List.cons_append, ddAppend, if_neg h1]
      rw [List.append_eq, ih h2]

/-- The inner table loop, started on an accumulator whose last entry carries
the schema's key, extends that entry with the tables' metadata in order. -/
theorem processTables_present (r : DBReflection) (schema : String)
    (ts : List String) (pre : SchemaResult) (vs : List TableMetadata)
    (h : schemaKey schema ∉ pre.map Prod.fst) :
    processTables r schema ts (pre ++ [(schemaKey schema, vs)])
      = pre ++ [(schemaKey schema, vs ++ ts.map (fun t => get_object_meta r t schema))] := by
  induction ts generalizing vs with
  | nil => simp [processTables]
  | cons t ts ih =>
      simp only [processTables]
      rw [ddAppend_last pre _ vs _ h, ih (vs ++ [get_object_meta r t schema])]
      simp

/-- The inner table loop on an accumulator without the schema's key: a schema
with no tables leaves the accumulator untouched (no key is created), one with
tables appends a single new entry with its tables' metadata in order. -/
theorem processTables_absent (r : DBReflection) (schema : String)
    (ts : List String) (acc : SchemaResult)
    (h : schemaKey schema ∉ acc.map Prod.fst) :
    processTables r schema ts acc
      = if ts = [] then acc
        else acc ++ [(schemaKey schema, ts.map (fun t => get_object_meta r t schema))] := by
  cases ts with
  | nil => rfl
  | cons t ts =>
      simp only [processTables]
      rw [ddAppend_absent acc _ _ h,
        processTables_present r schema ts acc [get_object_meta r t schema] h]
      simp

/-- The keys after the inner table loop. -/
theorem mem_keys_processTables (r : DBReflection) (schema : String)
    (ts : List String) (acc : SchemaResult) (k2 : String) :
    k2 ∈ (processTables r schema ts acc).map Prod.fst
      ↔ k2 ∈ acc.map Prod.fst ∨ (k2 = schemaKey schema ∧ ts ≠ []) := by
  induction ts generalizing acc with
  | nil => simp [processTables]
  | cons t ts ih =>
      simp only [processTables]
      rw [ih, mem_keys_ddAppend]
      simp
      tauto

/-- The keys after the outer schema loop: exactly the old keys plus the key
of every processed schema that has at least one table. -/
theorem mem_keys_coreLoop (r : DBReflection) (ss : List String)
    (acc : SchemaResult) (k2 : String) :
    k2 ∈ (coreLoop r ss acc).map Prod.fst
      ↔ k2 ∈ acc.map Prod.fst
        ∨ ∃ s, s ∈ ss ∧ k2 = schemaKey s ∧ list_tables r s ≠ [] := by
  induction ss generalizing acc with
  | nil => simp [coreLoop]
  | cons s ss ih =>
      simp only [coreLoop]
      rw [ih, mem_keys_processTables]
      constructor
      · rintro ((h0 | ⟨he, hne⟩) | ⟨s2, hs2, he, hne⟩)
        · exact Or.inl h0
        · exact Or.inr ⟨s, by simp, he, hne⟩
        · exact Or.inr ⟨s2, by simp [hs2], he, hne⟩
      · rintro (h0 | ⟨s2, hs2, he, hne⟩)
        · exact Or.inl (Or.inl h0)
        · rcases List.mem_cons.mp hs2 with he2 | hm2
          · subst he2
            exact Or.inl (Or.inr ⟨he, hne⟩)
          · exact Or.inr ⟨s2, hm2, he, hne⟩

/-- Claim C4 counterexample: a reflection exposing the single schema "a" with
zero tables produces an empty result — the key "schema: a" is not retained
with an empty table list, the schema is discarded entirely. -/
theorem empty_schema_discarded_counterexample :
    grouping ⟨["a"], "sqlite", fun _ => [], fun _ _ => []⟩ ["a"] = []
    ∧ schemaKey "a"
      ∉ (grouping ⟨["a"], "sqlite", fun _ => [], fun _ _ => []⟩ ["a"]).map Prod.fst := by
  decide

/-- Claim C4 as amended: the grouping built by `generate_from_meta` contains
the key "schema: " ++ s for a schema name s of the listing exactly when that
schema has at least one table; a schema with zero tables gets no key at all
(its key is absent rather than mapped to an empty list). -/
theorem grouping_key_iff_nonempty_tables (r : DBReflection) (ss : List String)
    (s : String) (h : s ∈ ss) :
    schemaKey s ∈ (grouping r ss).map Prod.fst ↔ list_tables r s ≠ [] := by
  unfold grouping
  rw [mem_keys_coreLoop]
  simp only [List.map_nil, List.not_mem_nil, false_or]
  constructor
  · rintro ⟨s2, _, he, hne⟩
    rwa [schemaKey_inj he]
  · intro hne
    exact ⟨s, (mem_pySorted s ss).mpr h, rfl, hne⟩

/-- Witness for claim C4's amended theorem: schema "a" has one table, so its
key is present. -/
theorem grouping_key_witness :
    schemaKey "a"
      ∈ (grouping ⟨["a"], "sqlite", fun _ => ["t1"], fun _ _ => []⟩ ["a"]).map Prod.fst :=
  (grouping_key_iff_nonempty_tables ⟨["a"], "sqlite", fun _ => ["t1"], fun _ _ => []⟩
    ["a"] "a" (by decide)).mpr (by decide)

/-- Claim C8 counterexample: schemas ["b", "a"] where "a" has zero tables and
"b" one table — the result keys are just ["schema: b"], not
["schema: a", "schema: b"]: the empty schema's key is missing entirely. -/
theorem zero_table_schema_key_missing_counterexample :
    (grouping ⟨["b", "a"], "sqlite", fun s => if s = "b" then ["t"] else [],
        fun _ _ => []⟩ ["b", "a"]).map Prod.fst = ["schema: b"]
    ∧ (["schema: b"] : List String) ≠ ["schema: a", "schema: b"] := by
  decide

/-- Claim C8 as amended: for schema names ["b", "a"] each owning at least one
table, the grouping iterates the schemas in lexicographically sorted order,
so the resulting keys are exactly ["schema: a", "schema: b"], and each key
maps to its schema's tables' metadata in exactly the order the reflection
returned the table names (hence with length that schema's table count); a
schema with zero tables would instead lose its key (and the
`generate_from_meta` entry point itself raises a TypeError before any of
this, see the arity claim). -/
theorem grouping_b_a_sorted (r : DBReflection) (ss : List String)
    (hss : ss = ["b", "a"])
    (ha : list_tables r "a" ≠ []) (hb : list_tables r "b" ≠ []) :
    grouping r ss
      = [(schemaKey "a", (list_tables r "a").map (fun t => get_object_meta r t "a")),
         (schemaKey "b", (list_tables r "b").map (fun t => get_object_meta r t "b"))] := by
  subst hss
  unfold grouping
  have hsort : pySorted ["b", "a"] = ["a", "b"] := by decide
  rw [hsort]
  simp only [coreLoop]
  rw [processTables_absent r "a" (list_tables r "a") [] (by simp)]
  rw [if_neg ha]
  have hkey : schemaKey "b"
      ∉ (([] : SchemaResult)
          ++ [(schemaKey "a", (list_tables r "a").map (fun t => get_object_meta r t "a"))]).map
        Prod.fst := by
    simp only [List.nil_append, List.map_cons, List.map_nil, List.mem_singleton]
    intro he
    exact absurd (schemaKey_inj he) (by decide)
  rw [processTables_absent r "b" (list_tables r "b") _ hkey]
  rw [if_neg hb]
  simp

/-- A concrete reflection for the witness: schema "b" owns table "tb", every
other schema owns table "ta". -/
def rBA : DBReflection :=
  ⟨["b", "a"], "sqlite", fun s => if s = "b" then ["tb"] else ["ta"], fun _ _ => []⟩

/-- Witness for claim C8's amended theorem at a concrete reflection. -/
theorem grouping_b_a_witness :
    grouping rBA ["b", "a"]
      = [(schemaKey "a", (list_tables rBA "a").map (fun t => get_object_meta rBA t "a")),
         (schemaKey "b", (list_tables rBA "b").map (fun t => get_object_meta rBA t "b"))] :=
  grouping_b_a_sorted rBA ["b", "a"] rfl (by decide) (by decide)

/-! ### Claim C9: `list_schemas` and the system-schema denylist -/

/-- Claim C9: `list_schemas` keeps exactly the reflected schema names whose
upper-cased form is not in the dialect-specific denylist (a case-insensitive
exclusion), and for every dialect other than "postgres" and "oracle" the
denylist is empty, so every reflected name is returned unfiltered. -/
theorem list_schemas_excludes_system_schemas (r : DBReflection) (s : String) :
    (s ∈ list_schemas r
      ↔ s ∈ r.schemas ∧ pyUpper s ∉ system_schemas_for r.dialectName)
    ∧ (r.dialectName = "postgres" ∨ r.dialectName = "oracle"
        ∨ system_schemas_for r.dialectName = []) := by
  constructor
  · unfold list_schemas
    simp [List.mem_filter]
  · by_cases hp : r.dialectName = "postgres"
    · exact Or.inl hp
    · by_cases ho : r.dialectName = "oracle"
      · exact Or.inr (Or.inl ho)
      · refine Or.inr (Or.inr ?_)
        unfold system_schemas_for
        rw [if_neg hp, if_neg ho]

/-- A concrete postgres reflection for the C9 witness. -/
def rPg : DBReflection :=
  ⟨["public", "pg_catalog"], "postgres", fun _ => [], fun _ _ => []⟩

/-- Witness for claim C9 at a concrete postgres connection and schema name. -/
theorem list_schemas_excludes_witness :
    ("pg_catalog" ∈ list_schemas rPg
      ↔ "pg_catalog" ∈ rPg.schemas
        ∧ pyUpper "pg_catalog" ∉ system_schemas_for rPg.dialectName)
    ∧ (rPg.dialectName = "postgres" ∨ rPg.dialectName = "oracle"
        ∨ system_schemas_for rPg.dialectName = []) :=
  list_schemas_excludes_system_schemas rPg "pg_catalog"

/-! ### Claim C10: the arity error in `generate_from_meta` -/

/-- Claim C10: `generate_from_meta` passes two positional arguments
(`connection` and `self.dialect`) to `list_schemas`, which declares exactly
one parameter, so every call raises the TypeError before any schema is
processed and the function never returns a result. -/
theorem generate_from_meta_always_type_error (r : DBReflection) :
    generate_from_meta r
      = Except.error
          "TypeError: list_schemas() takes 1 positional argument but 2 were given" := rfl
